import Mathlib

/-!
Verification of the color-temperature analysis pipeline of
`color_temp_analyzer.py` (class `ColorTemperatureAnalyzer`).

Embedding conventions:
* Float arithmetic is modelled by exact field arithmetic.  Helper functions
  that only use field operations and order comparisons are stated over an
  arbitrary `LinearOrderedField`, so they can be used both at `ℚ`
  (computable, convenient for concrete witnesses) and at `ℝ`.
* The sRGB gamma curve uses the real power `x ^ (2.4 : ℝ)` and therefore
  lives over `ℝ`, as does the XYZ / CCT pipeline built on top of it.
* The mutable `ColorTemperatureAnalyzer` object is modelled as an explicit
  state record; each method becomes a function from the state (plus the
  decoded file content, with `none` standing for any load failure: missing
  file, unsupported extension, decode exception) to a pair of the new state
  and the method's return value.
-/

namespace ColorTemp

/-- A color triple; channels in the order red, green, blue. -/
structure Triple (α : Type) where
  r : α
  g : α
  b : α
deriving DecidableEq

/-- A CIE tristimulus triple. -/
structure XYZ (α : Type) where
  x : α
  y : α
  z : α
deriving DecidableEq

/-- Source line 157: `np.clip(corrected, 0.0, 1.0)`, per channel. -/
def clip01 {α : Type} [LinearOrderedField α] (v : α) : α :=
  min (max v 0) 1

/-- Source lines 141-159, `apply_white_balance`: with factors loaded,
multiply channel-wise and clip to the unit interval; with no factors
loaded (`self.white_balance_factors is None`) return the input unchanged. -/
def apply_white_balance {α : Type} [LinearOrderedField α]
    (factors : Option (Triple α)) (rgb : Triple α) : Triple α :=
  match factors with
  | none => rgb
  | some f => ⟨clip01 (rgb.r * f.r), clip01 (rgb.g * f.g), clip01 (rgb.b * f.b)⟩

/-- Minimum of three values; `np.min` over a 3-element array. -/
def min3 {α : Type} [LinearOrder α] (a b c : α) : α :=
  min (min a b) c

/-- Source line 60: `1.0 / self.white_reference_rgb`, channel-wise. -/
def reciprocal_factors {α : Type} [LinearOrderedField α] (ref : Triple α) : Triple α :=
  ⟨1 / ref.r, 1 / ref.g, 1 / ref.b⟩

/-- Source lines 63-64: divide every factor by the minimum factor. -/
def normalize_factors {α : Type} [LinearOrderedField α] (f : Triple α) : Triple α :=
  let m := min3 f.r f.g f.b
  ⟨f.r / m, f.g / m, f.b / m⟩

/-- Source lines 60-64: the white-balance correction factors derived from an
averaged reference triple (spec: `calibrate`). -/
def calibrate_factors {α : Type} [LinearOrderedField α] (ref : Triple α) : Triple α :=
  normalize_factors (reciprocal_factors ref)

/-- Channel-wise arithmetic mean of a list of triples
(`np.mean(... .reshape(-1, 3), axis=0)`). -/
def average {α : Type} [LinearOrderedField α] (pixels : List (Triple α)) : Triple α :=
  ⟨(pixels.map Triple.r).sum / (pixels.length : α),
   (pixels.map Triple.g).sum / (pixels.length : α),
   (pixels.map Triple.b).sum / (pixels.length : α)⟩

/-- Channel-wise division by 255 (8-bit normalization). -/
def div255 {α : Type} [LinearOrderedField α] (t : Triple α) : Triple α :=
  ⟨t.r / 255, t.g / 255, t.b / 255⟩

/-- Source lines 270-293, `get_physical_light_description`. -/
def get_physical_light_description {α : Type} [LinearOrderedField α]
    (temp_kelvin : α) : String :=
  if temp_kelvin < 2000 then "Sehr warm - Kerzenlicht, Petroleum-/Gaslampe"
  else if temp_kelvin < 3000 then "Warm - Glühlampe, warmes LED-Licht"
  else if temp_kelvin < 4000 then "Warmweiß - Halogenlampe, warmweißes LED"
  else if temp_kelvin < 5000 then "Neutral - Leuchtstoffröhre, neutrales LED"
  else if temp_kelvin < 6000 then "Kaltweiß - Tageslicht bewölkt, kaltweißes LED"
  else if temp_kelvin < 7000 then "Tageslicht - direktes Sonnenlicht mittags"
  else if temp_kelvin < 8000 then "Kalt - Schatten im Freien, Nordfenster"
  else "Sehr kalt - klarer blauer Himmel, Hochgebirge"

/-- Source lines 324-349, `calculate_inverse_wb_setting`. -/
def calculate_inverse_wb_setting {α : Type} [LinearOrderedField α]
    (measured_temp : α) : α :=
  if measured_temp ≤ 2000 then 9000
  else if measured_temp ≤ 3000 then 7000
  else if measured_temp ≤ 4000 then 5500
  else if measured_temp ≤ 5500 then 4000
  else if measured_temp ≤ 7000 then 3200
  else if measured_temp ≤ 8500 then 2800
  else 2300

/-- Source lines 198-202: the sRGB inverse-gamma law. -/
noncomputable def gamma_correct (value : ℝ) : ℝ :=
  if value ≤ 0.04045 then value / 12.92
  else ((value + 0.055) / 1.055) ^ (2.4 : ℝ)

/-- Source lines 187-213, `rgb_to_xyz`: gamma-linearize each channel, then
apply the fixed sRGB → XYZ (D65) matrix. -/
noncomputable def rgb_to_xyz (rgb : Triple ℝ) : XYZ ℝ :=
  let r := gamma_correct rgb.r
  let g := gamma_correct rgb.g
  let b := gamma_correct rgb.b
  ⟨r * 0.4124564 + g * 0.3575761 + b * 0.1804375,
   r * 0.2126729 + g * 0.7151522 + b * 0.0721750,
   r * 0.0193339 + g * 0.1191920 + b * 0.9503041⟩

/-- Source lines 215-237, `xyz_to_cct`: McCamy's approximation, with the
`None` guard on a zero tristimulus sum. -/
noncomputable def xyz_to_cct (xyz : XYZ ℝ) : Option ℝ :=
  if xyz.x + xyz.y + xyz.z = 0 then none
  else
    let s := xyz.x + xyz.y + xyz.z
    let x_chrom := xyz.x / s
    let y_chrom := xyz.y / s
    let n := (x_chrom - 0.3320) / (0.1858 - y_chrom)
    some (449 * n ^ 3 + 3525 * n ^ 2 + 6823.3 * n + 5520.33)

/-- The mutable fields of a `ColorTemperatureAnalyzer` instance
(`__init__`, source lines 14-25). RGB data is kept at `ℚ`; the computed
color temperature, produced by the `ℝ`-valued pipeline, at `ℝ`. -/
structure AnalyzerState where
  image_path : Option String
  image_array : Option (List (Triple ℚ))
  white_reference_path : Option String
  white_reference_rgb : Option (Triple ℚ)
  white_balance_factors : Option (Triple ℚ)
  avg_rgb : Option (Triple ℚ)
  corrected_rgb : Option (Triple ℚ)
  color_temperature : Option ℝ

/-- The freshly constructed analyzer: every field `None`. -/
def initState : AnalyzerState :=
  ⟨none, none, none, none, none, none, none, none⟩

/-- A decoded image file: its path and its pixel grid, flattened to a list
of 8-bit RGB triples (values 0..255). -/
abbrev DecodedFile := String × List (Triple ℚ)

/-- The three fields making up the calibrated white reference:
`white_reference_path`, `white_reference_rgb`, `white_balance_factors`. -/
def wbFields (st : AnalyzerState) :
    Option String × Option (Triple ℚ) × Option (Triple ℚ) :=
  (st.white_reference_path, st.white_reference_rgb, st.white_balance_factors)

/-- Source lines 27-76, `load_white_reference`.  `file = none` models every
failure path that returns `False` before the reference statistics are
computed (missing file, unsupported extension, decode exception); on success
the averaged reference (line 56), the normalized factors (lines 60-64) and
the path (line 66) are stored and `True` is returned. -/
def load_white_reference (st : AnalyzerState) (file : Option DecodedFile) :
    AnalyzerState × Bool :=
  match file with
  | none => (st, false)
  | some (path, pixels) =>
      let ref := div255 (average pixels)
      let factors := calibrate_factors ref
      ({ st with
          white_reference_rgb := some ref,
          white_balance_factors := some factors,
          white_reference_path := some path }, true)

/-- Modelled from the spec: the DegenerateReference guard of §4.3 / §7
("Fails with DegenerateReference if any reference channel is 0 ... undefined
in source, must be guarded explicitly in the reimplementation") is absent
from `load_white_reference` in the source.  This variant adds the mandated
guard: it fails, touching no state, when a reference channel average is 0. -/
def load_white_reference_guarded (st : AnalyzerState) (file : Option DecodedFile) :
    AnalyzerState × Bool :=
  match file with
  | none => (st, false)
  | some (path, pixels) =>
      let ref := div255 (average pixels)
      if ref.r = 0 ∨ ref.g = 0 ∨ ref.b = 0 then (st, false)
      else
        let factors := calibrate_factors ref
        ({ st with
            white_reference_rgb := some ref,
            white_balance_factors := some factors,
            white_reference_path := some path }, true)

/-- Source lines 101-139, `load_image`: on success store the path and the
decoded pixel array and return `True`; on any failure return `False`. -/
def load_image (st : AnalyzerState) (file : Option DecodedFile) :
    AnalyzerState × Bool :=
  match file with
  | none => (st, false)
  | some (path, pixels) =>
      ({ st with image_path := some path, image_array := some pixels }, true)

/-- Source lines 161-185, `calculate_average_rgb`: with no image loaded
return `None`; otherwise normalize to the unit range, average, store
`avg_rgb`, and either white-balance (when requested and calibrated) or copy
the average into `corrected_rgb`, returning the triple that was stored. -/
def calculate_average_rgb (st : AnalyzerState) (apply_wb : Bool) :
    AnalyzerState × Option (Triple ℚ) :=
  match st.image_array with
  | none => (st, none)
  | some pixels =>
      let avg := average (pixels.map div255)
      let st1 := { st with avg_rgb := some avg }
      if apply_wb && st1.white_balance_factors.isSome then
        let corr := apply_white_balance st1.white_balance_factors avg
        ({ st1 with corrected_rgb := some corr }, some corr)
      else
        ({ st1 with corrected_rgb := some avg }, some avg)

/-- Source lines 239-268, `analyze_color_temperature`: `None` with no image
loaded; otherwise average (with optional white balance), convert to XYZ,
estimate the CCT, store it (possibly `None` on a zero tristimulus sum) and
return it. -/
noncomputable def analyze_color_temperature (st : AnalyzerState) (apply_wb : Bool) :
    AnalyzerState × Option ℝ :=
  match st.image_array with
  | none => (st, none)
  | some _ =>
      let res := calculate_average_rgb st apply_wb
      match res.2 with
      | none => (res.1, none)
      | some avg =>
          let xyz := rgb_to_xyz ⟨(avg.r : ℝ), (avg.g : ℝ), (avg.b : ℝ)⟩
          let cct := xyz_to_cct xyz
          ({ res.1 with color_temperature := cct }, cct)

/-! ### Theorems -/

/-- C7: for every input triple and every triple of correction factors,
`apply_white_balance` returns per channel exactly `clip(rgb[c] * factor[c], 0, 1)`,
and every component of the returned triple lies in `[0, 1]`. -/
theorem apply_white_balance_clips {α : Type} [LinearOrderedField α]
    (rgb f : Triple α) :
    apply_white_balance (some f) rgb =
      ⟨clip01 (rgb.r * f.r), clip01 (rgb.g * f.g), clip01 (rgb.b * f.b)⟩ ∧
    (0 ≤ (apply_white_balance (some f) rgb).r ∧ (apply_white_balance (some f) rgb).r ≤ 1) ∧
    (0 ≤ (apply_white_balance (some f) rgb).g ∧ (apply_white_balance (some f) rgb).g ≤ 1) ∧
    (0 ≤ (apply_white_balance (some f) rgb).b ∧ (apply_white_balance (some f) rgb).b ≤ 1) := by
  have hlo : ∀ v : α, 0 ≤ clip01 v := fun v => le_min (le_max_right v 0) zero_le_one
  have hhi : ∀ v : α, clip01 v ≤ 1 := fun v => min_le_right _ 1
  exact ⟨rfl, ⟨hlo _, hhi _⟩, ⟨hlo _, hhi _⟩, ⟨hlo _, hhi _⟩⟩

/-- C8: white-balance application is monotonic per channel: for a channel
value `v ≥ 0` and factors `f1 ≤ f2`, the clipped output at `f1` is at most
the clipped output at `f2`. -/
theorem apply_white_balance_monotone {α : Type} [LinearOrderedField α]
    (v f1 f2 : α) (hv : 0 ≤ v) (hf : f1 ≤ f2) :
    clip01 (v * f1) ≤ clip01 (v * f2) := by
  have h : v * f1 ≤ v * f2 := mul_le_mul_of_nonneg_left hf hv
  exact min_le_min (max_le_max h (le_refl 0)) (le_refl 1)

/-- C8 witness: a concrete instance of the monotonicity theorem at
`v = 1/2`, `f1 = 1`, `f2 = 3`. -/
theorem apply_white_balance_monotone_witness :
    clip01 ((1/2 : ℚ) * 1) ≤ clip01 ((1/2 : ℚ) * 3) :=
  apply_white_balance_monotone (1/2) 1 3 (by norm_num) (by norm_num)

/-- C9: `get_physical_light_description` realizes exactly eight bands with
boundaries 2000, 3000, 4000, 5000, 6000, 7000, 8000, each inclusive-lower /
exclusive-upper (the last unbounded above): a value equal to a boundary
selects the upper band's label, a value strictly below it the lower band's. -/
theorem get_physical_light_description_bands {α : Type} [LinearOrderedField α]
    (t : α) :
    (t < 2000 →
      get_physical_light_description t = "Sehr warm - Kerzenlicht, Petroleum-/Gaslampe") ∧
    (2000 ≤ t → t < 3000 →
      get_physical_light_description t = "Warm - Glühlampe, warmes LED-Licht") ∧
    (3000 ≤ t → t < 4000 →
      get_physical_light_description t = "Warmweiß - Halogenlampe, warmweißes LED") ∧
    (4000 ≤ t → t < 5000 →
      get_physical_light_description t = "Neutral - Leuchtstoffröhre, neutrales LED") ∧
    (5000 ≤ t → t < 6000 →
      get_physical_light_description t = "Kaltweiß - Tageslicht bewölkt, kaltweißes LED") ∧
    (6000 ≤ t → t < 7000 →
      get_physical_light_description t = "Tageslicht - direktes Sonnenlicht mittags") ∧
    (7000 ≤ t → t < 8000 →
      get_physical_light_description t = "Kalt - Schatten im Freien, Nordfenster") ∧
    (8000 ≤ t →
      get_physical_light_description t = "Sehr kalt - klarer blauer Himmel, Hochgebirge") := by
  have step : ∀ a b : α, a ≤ b → b ≤ t → ¬ t < a :=
    fun a b hab hbt => not_lt.2 (le_trans hab hbt)
  refine ⟨?_, ?_, ?_, ?_, ?_, ?_, ?_, ?_⟩
  · intro h
    unfold get_physical_light_description
    rw [if_pos h]
  · intro h1 h2
    unfold get_physical_light_description
    rw [if_neg (not_lt.2 h1), if_pos h2]
  · intro h1 h2
    unfold get_physical_light_description
    rw [if_neg (step _ _ (by norm_num) h1),
      if_neg (not_lt.2 h1), if_pos h2]
  · intro h1 h2
    unfold get_physical_light_description
    rw [if_neg (step _ _ (by norm_num) h1),
      if_neg (step _ _ (by norm_num) h1), if_neg (not_lt.2 h1), if_pos h2]
  · intro h1 h2
    unfold get_physical_light_description
    rw [if_neg (step _ _ (by norm_num) h1),
      if_neg (step _ _ (by norm_num) h1), if_neg (step _ _ (by norm_num) h1),
      if_neg (not_lt.2 h1), if_pos h2]
  · intro h1 h2
    unfold get_physical_light_description
    rw [if_neg (step _ _ (by norm_num) h1),
      if_neg (step _ _ (by norm_num) h1), if_neg (step _ _ (by norm_num) h1),
      if_neg (step _ _ (by norm_num) h1), if_neg (not_lt.2 h1), if_pos h2]
  · intro h1 h2
    unfold get_physical_light_description
    rw [if_neg (step _ _ (by norm_num) h1),
      if_neg (step _ _ (by norm_num) h1), if_neg (step _ _ (by norm_num) h1),
      if_neg (step _ _ (by norm_num) h1), if_neg (step _ _ (by norm_num) h1),
      if_neg (not_lt.2 h1), if_pos h2]
  · intro h1
    unfold get_physical_light_description
    rw [if_neg (step _ _ (by norm_num) h1),
      if_neg (step _ _ (by norm_num) h1), if_neg (step _ _ (by norm_num) h1),
      if_neg (step _ _ (by norm_num) h1), if_neg (step _ _ (by norm_num) h1),
      if_neg (step _ _ (by norm_num) h1), if_neg (not_lt.2 h1)]

/-- C9 witness: at the boundary value 2000 exactly, the upper band's label
("Warm") is selected, not the lower band's. -/
theorem get_physical_light_description_bands_witness :
    get_physical_light_description (2000 : ℚ) = "Warm - Glühlampe, warmes LED-Licht" :=
  (get_physical_light_description_bands (2000 : ℚ)).2.1 (le_refl _) (by norm_num)

/-- C10: `calculate_inverse_wb_setting` is the exact seven-bucket lookup
table of the claim, and its range is contained in (and, by the bucket
clauses, equals) the constant set 9000, 7000, 5500, 4000, 3200, 2800, 2300. -/
theorem calculate_inverse_wb_setting_buckets {α : Type} [LinearOrderedField α] :
    (∀ t : α,
      (t ≤ 2000 → calculate_inverse_wb_setting t = 9000) ∧
      (2000 < t → t ≤ 3000 → calculate_inverse_wb_setting t = 7000) ∧
      (3000 < t → t ≤ 4000 → calculate_inverse_wb_setting t = 5500) ∧
      (4000 < t → t ≤ 5500 → calculate_inverse_wb_setting t = 4000) ∧
      (5500 < t → t ≤ 7000 → calculate_inverse_wb_setting t = 3200) ∧
      (7000 < t → t ≤ 8500 → calculate_inverse_wb_setting t = 2800) ∧
      (8500 < t → calculate_inverse_wb_setting t = 2300)) ∧
    (∀ t : α, calculate_inverse_wb_setting t = 9000 ∨
      calculate_inverse_wb_setting t = 7000 ∨ calculate_inverse_wb_setting t = 5500 ∨
      calculate_inverse_wb_setting t = 4000 ∨ calculate_inverse_wb_setting t = 3200 ∨
      calculate_inverse_wb_setting t = 2800 ∨ calculate_inverse_wb_setting t = 2300) := by
  constructor
  · intro t
    refine ⟨?_, ?_, ?_, ?_, ?_, ?_, ?_⟩
    · intro h
      unfold calculate_inverse_wb_setting
      rw [if_pos h]
    · intro h1 h2
      unfold calculate_inverse_wb_setting
      rw [if_neg (not_le.2 h1), if_pos h2]
    · intro h1 h2
      unfold calculate_inverse_wb_setting
      rw [if_neg (not_le.2 (by linarith)),
        if_neg (not_le.2 h1), if_pos h2]
    · intro h1 h2
      unfold calculate_inverse_wb_setting
      rw [if_neg (not_le.2 (by linarith)),
        if_neg (not_le.2 (by linarith)), if_neg (not_le.2 h1), if_pos h2]
    · intro h1 h2
      unfold calculate_inverse_wb_setting
      rw [if_neg (not_le.2 (by linarith)),
        if_neg (not_le.2 (by linarith)), if_neg (not_le.2 (by linarith)),
        if_neg (not_le.2 h1), if_pos h2]
    · intro h1 h2
      unfold calculate_inverse_wb_setting
      rw [if_neg (not_le.2 (by linarith)),
        if_neg (not_le.2 (by linarith)), if_neg (not_le.2 (by linarith)),
        if_neg (not_le.2 (by linarith)), if_neg (not_le.2 h1), if_pos h2]
    · intro h1
      unfold calculate_inverse_wb_setting
      rw [if_neg (not_le.2 (by linarith)),
        if_neg (not_le.2 (by linarith)), if_neg (not_le.2 (by linarith)),
        if_neg (not_le.2 (by linarith)), if_neg (not_le.2 (by linarith)),
        if_neg (not_le.2 h1)]
  · intro t
    unfold calculate_inverse_wb_setting
    split_ifs <;> simp

/-- C10 witness: a probe inside the second bucket, `t = 2500`, yields the
bucket constant 7000. -/
theorem calculate_inverse_wb_setting_buckets_witness :
    calculate_inverse_wb_setting (2500 : ℚ) = 7000 :=
  ((calculate_inverse_wb_setting_buckets (α := ℚ)).1 2500).2.1 (by norm_num) (by norm_num)

/-- C6: for a reference triple with all channels strictly positive, the
correction factors produced by calibration have minimum exactly 1, every
factor is at least 1, and re-normalizing the returned factors (dividing by
their minimum again) is the identity. -/
theorem calibrate_factors_min_one {α : Type} [LinearOrderedField α]
    (ref : Triple α) (hr : 0 < ref.r) (hg : 0 < ref.g) (hb : 0 < ref.b) :
    min3 (calibrate_factors ref).r (calibrate_factors ref).g (calibrate_factors ref).b = 1 ∧
    1 ≤ (calibrate_factors ref).r ∧ 1 ≤ (calibrate_factors ref).g ∧
    1 ≤ (calibrate_factors ref).b ∧
    normalize_factors (calibrate_factors ref) = calibrate_factors ref := by
  have hfr : 0 < (reciprocal_factors ref).r := by
    simpa [reciprocal_factors] using one_div_pos.2 hr
  have hfg : 0 < (reciprocal_factors ref).g := by
    simpa [reciprocal_factors] using one_div_pos.2 hg
  have hfb : 0 < (reciprocal_factors ref).b := by
    simpa [reciprocal_factors] using one_div_pos.2 hb
  set f := reciprocal_factors ref with hf
  have hm : 0 < min3 f.r f.g f.b := lt_min (lt_min hfr hfg) hfb
  have hmr : min3 f.r f.g f.b ≤ f.r := le_trans (min_le_left _ _) (min_le_left _ _)
  have hmg : min3 f.r f.g f.b ≤ f.g := le_trans (min_le_left _ _) (min_le_right _ _)
  have hmb : min3 f.r f.g f.b ≤ f.b := min_le_right _ _
  have hcal : calibrate_factors ref =
      ⟨f.r / min3 f.r f.g f.b, f.g / min3 f.r f.g f.b, f.b / min3 f.r f.g f.b⟩ := rfl
  have hmin : min3 (calibrate_factors ref).r (calibrate_factors ref).g
      (calibrate_factors ref).b = 1 := by
    rw [hcal]
    show min (min (f.r / _) (f.g / _)) (f.b / _) = 1
    rw [min_div_div_right hm.le, min_div_div_right hm.le]
    exact div_self (ne_of_gt hm)
  refine ⟨hmin, ?_, ?_, ?_, ?_⟩
  · rw [hcal]; exact (one_le_div hm).2 hmr
  · rw [hcal]; exact (one_le_div hm).2 hmg
  · rw [hcal]; exact (one_le_div hm).2 hmb
  · have : normalize_factors (calibrate_factors ref) =
        ⟨(calibrate_factors ref).r / 1, (calibrate_factors ref).g / 1,
         (calibrate_factors ref).b / 1⟩ := by
      unfold normalize_factors
      rw [show min3 (calibrate_factors ref).r (calibrate_factors ref).g
        (calibrate_factors ref).b = 1 from hmin]
    rw [this, div_one, div_one, div_one]

/-- C6 witness: calibration from the reference triple (1/2, 1/4, 1): the
factors are (2, 4, 1) normalized by their minimum 1, so the minimum is 1,
every factor is at least 1, and re-normalization is the identity. -/
theorem calibrate_factors_min_one_witness :
    min3 (calibrate_factors (⟨1/2, 1/4, 1⟩ : Triple ℚ)).r
      (calibrate_factors (⟨1/2, 1/4, 1⟩ : Triple ℚ)).g
      (calibrate_factors (⟨1/2, 1/4, 1⟩ : Triple ℚ)).b = 1 ∧
    1 ≤ (calibrate_factors (⟨1/2, 1/4, 1⟩ : Triple ℚ)).r ∧
    1 ≤ (calibrate_factors (⟨1/2, 1/4, 1⟩ : Triple ℚ)).g ∧
    1 ≤ (calibrate_factors (⟨1/2, 1/4, 1⟩ : Triple ℚ)).b ∧
    normalize_factors (calibrate_factors (⟨1/2, 1/4, 1⟩ : Triple ℚ)) =
      calibrate_factors (⟨1/2, 1/4, 1⟩ : Triple ℚ) :=
  calibrate_factors_min_one ⟨1/2, 1/4, 1⟩ (by norm_num) (by norm_num) (by norm_num)

/-- C1: `xyz_to_cct` returns `none` on an XYZ triple exactly when
`X + Y + Z = 0`; on every triple with nonzero sum (and chromaticity
`y ≠ 0.1858`) it returns exactly McCamy's cubic
`449 n³ + 3525 n² + 6823.3 n + 5520.33` with
`n = (X/S − 0.3320) / (0.1858 − Y/S)`, `S = X + Y + Z`. -/
theorem xyz_to_cct_formula (X Y Z : ℝ) :
    (xyz_to_cct ⟨X, Y, Z⟩ = none ↔ X + Y + Z = 0) ∧
    (X + Y + Z ≠ 0 → Y / (X + Y + Z) ≠ 0.1858 →
      xyz_to_cct ⟨X, Y, Z⟩ =
        some (449 * ((X / (X + Y + Z) - 0.3320) / (0.1858 - Y / (X + Y + Z))) ^ 3 +
          3525 * ((X / (X + Y + Z) - 0.3320) / (0.1858 - Y / (X + Y + Z))) ^ 2 +
          6823.3 * ((X / (X + Y + Z) - 0.3320) / (0.1858 - Y / (X + Y + Z))) +
          5520.33)) := by
  constructor
  · constructor
    · intro h
      by_contra hs
      rw [xyz_to_cct, if_neg hs] at h
      exact Option.some_ne_none _ h
    · intro h
      rw [xyz_to_cct, if_pos h]
  · intro hs _
    rw [xyz_to_cct, if_neg hs]

/-- C1 witness: the formula clause applied at the concrete triple
XYZ = (1, 2, 3), whose tristimulus sum 6 is nonzero and whose chromaticity
y = 1/3 differs from 0.1858. -/
theorem xyz_to_cct_formula_witness :
    xyz_to_cct ⟨(1 : ℝ), 2, 3⟩ =
      some (449 * (((1 : ℝ) / (1 + 2 + 3) - 0.3320) / (0.1858 - 2 / (1 + 2 + 3))) ^ 3 +
        3525 * (((1 : ℝ) / (1 + 2 + 3) - 0.3320) / (0.1858 - 2 / (1 + 2 + 3))) ^ 2 +
        6823.3 * (((1 : ℝ) / (1 + 2 + 3) - 0.3320) / (0.1858 - 2 / (1 + 2 + 3))) +
        5520.33) :=
  (xyz_to_cct_formula 1 2 3).2 (by norm_num) (by norm_num)

/-- C4: `xyz_to_cct` is total on every input with nonzero tristimulus sum:
the only absent branch in the function is the `S = 0` guard, so a defined
(possibly degenerate) numeric value is produced even where the McCamy
denominator `0.1858 − y` vanishes. -/
theorem xyz_to_cct_total (X Y Z : ℝ) (h : X + Y + Z ≠ 0) :
    (xyz_to_cct ⟨X, Y, Z⟩).isSome = true := by
  rw [xyz_to_cct, if_neg h]
  rfl

/-- C4 witness: the triple XYZ = (3000, 1858, 5142) has sum 10000 and
chromaticity y = 1858/10000 = 0.1858 exactly — the singular denominator of
McCamy's formula — yet the result is still a present numeric value. -/
theorem xyz_to_cct_total_witness :
    (xyz_to_cct ⟨(3000 : ℝ), 1858, 5142⟩).isSome = true :=
  xyz_to_cct_total 3000 1858 5142 (by norm_num)

/-- C2: evaluation of the source's `load_white_reference` at a failing
input: a white reference whose pixels all have a zero red channel (average
RGB = (0, 1, 1) after normalization).  The source has no
DegenerateReference guard, reaches the division `1.0 / 0`, and returns
`True` with correction factors installed.  (Under IEEE semantics the zero
channel's factor is infinite; in this exact embedding `1 / 0 = 0`.) -/
theorem load_white_reference_zero_channel_reports_success :
    (load_white_reference initState (some ("white.png", [⟨0, 255, 255⟩]))).2 = true ∧
    (load_white_reference initState
        (some ("white.png", [⟨0, 255, 255⟩]))).1.white_reference_rgb = some ⟨0, 1, 1⟩ ∧
    (load_white_reference initState
        (some ("white.png", [⟨0, 255, 255⟩]))).1.white_balance_factors.isSome = true := by
  refine ⟨rfl, ?_, rfl⟩
  show some (div255 (average [⟨0, 255, 255⟩])) = some (⟨0, 1, 1⟩ : Triple ℚ)
  norm_num [div255, average]

/-- `calculate_average_rgb` never touches the white-reference fields,
whatever its outcome. -/
lemma wbFields_calculate_average_rgb (st : AnalyzerState) (b : Bool) :
    wbFields (calculate_average_rgb st b).1 = wbFields st := by
  unfold calculate_average_rgb
  cases st.image_array with
  | none => rfl
  | some pixels =>
      dsimp only
      split_ifs <;> rfl

/-- With an image loaded, `calculate_average_rgb` returns a present triple. -/
lemma calculate_average_rgb_isSome (st : AnalyzerState) (b : Bool)
    (pixels : List (Triple ℚ)) (h : st.image_array = some pixels) :
    ((calculate_average_rgb st b).2).isSome = true := by
  unfold calculate_average_rgb
  rw [h]
  dsimp only
  split_ifs <;> rfl

/-- C3: every operation that ends in a recoverable failure (a white-reference
or image file that cannot be loaded, `NotLoaded` — no image for averaging or
analysis, `NoSignal` — absent CCT, and a `DegenerateReference` during
re-calibration in the spec-modelled guarded variant) leaves the three
white-reference fields (`white_reference_path`, `white_reference_rgb`,
`white_balance_factors`) exactly as they were before the call. -/
theorem white_reference_preserved_on_failure (st : AnalyzerState) :
    (∀ file, (load_white_reference st file).2 = false →
      wbFields (load_white_reference st file).1 = wbFields st) ∧
    (∀ file, (load_image st file).2 = false →
      wbFields (load_image st file).1 = wbFields st) ∧
    (∀ b, (calculate_average_rgb st b).2 = none →
      wbFields (calculate_average_rgb st b).1 = wbFields st) ∧
    (∀ b, (analyze_color_temperature st b).2 = none →
      wbFields (analyze_color_temperature st b).1 = wbFields st) ∧
    (∀ file, (load_white_reference_guarded st file).2 = false →
      wbFields (load_white_reference_guarded st file).1 = wbFields st) := by
  refine ⟨?_, ?_, ?_, ?_, ?_⟩
  · intro file h
    cases file with
    | none => rfl
    | some f => simp [load_white_reference] at h
  · intro file h
    cases file with
    | none => rfl
    | some f => simp [load_image] at h
  · intro b _
    exact wbFields_calculate_average_rgb st b
  · intro b h
    unfold analyze_color_temperature
    cases hi : st.image_array with
    | none => rfl
    | some pixels =>
        dsimp only
        cases hc : (calculate_average_rgb st b).2 with
        | none => exact wbFields_calculate_average_rgb st b
        | some avg =>
            dsimp only
            exact wbFields_calculate_average_rgb st b
  · intro file h
    cases file with
    | none => rfl
    | some f =>
        obtain ⟨path, pixels⟩ := f
        unfold load_white_reference_guarded at h ⊢
        dsimp only at h ⊢
        split_ifs at h ⊢ with hz
        · rfl

/-- C3 witness: on an analyzer already holding a calibration
(path "ref.png", reference (1, 1, 1), factors (1, 1, 1)), a failing
white-reference load (unreadable file) leaves all three white-reference
fields unchanged. -/
theorem white_reference_preserved_on_failure_witness :
    wbFields (load_white_reference
      { initState with
          white_reference_path := some "ref.png",
          white_reference_rgb := some ⟨1, 1, 1⟩,
          white_balance_factors := some ⟨1, 1, 1⟩ } none).1 =
    wbFields
      { initState with
          white_reference_path := some "ref.png",
          white_reference_rgb := some ⟨1, 1, 1⟩,
          white_balance_factors := some ⟨1, 1, 1⟩ } :=
  (white_reference_preserved_on_failure _).1 none rfl

/-- The sRGB inverse gamma fixes 1: `((1 + 0.055) / 1.055) ^ 2.4 = 1`. -/
lemma gamma_correct_one : gamma_correct 1 = 1 := by
  unfold gamma_correct
  rw [if_neg (by norm_num)]
  have h1 : ((1 : ℝ) + 0.055) / 1.055 = 1 := by norm_num
  rw [h1, Real.one_rpow]

/-- `rgb_to_xyz` at the pure-white triple: the row sums of the sRGB → XYZ
matrix. -/
lemma rgb_to_xyz_white :
    rgb_to_xyz ⟨1, 1, 1⟩ = ⟨0.9504700, 1.0000001, 1.0888300⟩ := by
  simp only [rgb_to_xyz]
  rw [gamma_correct_one]
  norm_num

/-- C5: composing `rgb_to_xyz` and `xyz_to_cct` on the RGB triple
(1.0, 1.0, 1.0) yields a defined Kelvin value within 100 of 6500 (the D65
white point). -/
theorem white_cct_near_d65 :
    ∃ c : ℝ, xyz_to_cct (rgb_to_xyz ⟨1, 1, 1⟩) = some c ∧ |c - 6500| ≤ 100 := by
  rw [rgb_to_xyz_white, xyz_to_cct, if_neg (by norm_num)]
  dsimp only
  refine ⟨_, rfl, ?_⟩
  rw [abs_le]
  constructor <;> norm_num

end ColorTemp
